import Mathlib

/-!
Verification of the PrepGPT interview-simulation core: a shallow embedding of
the rubric-based transcript evaluator, the score calibrator, the language
normalizer, the follow-up policy and the next-step plan builder, together with
theorems settling the spec claims about them.  Transcripts and question texts
are modelled as `List Char`; JavaScript numbers that carry scores are modelled
as `Int` (all score arithmetic in the source is integral after rounding) and
the blending weights as exact rationals.
-/

namespace PrepGPT

/-- ASCII whitespace, modelling the characters relevant to `\s`, `trim` and
`split(/\s+/)` in the source (the Unicode extras never interact with the
ASCII keyword detectors). -/
def isSpaceChar (c : Char) : Bool :=
  c = ' ' || c = '\t' || c = '\n' || c = '\r' || c = '\x0b' || c = '\x0c'

/-- Model of `String.prototype.trim`: drop whitespace from both ends. -/
def trimChars (l : List Char) : List Char :=
  ((l.dropWhile isSpaceChar).reverse.dropWhile isSpaceChar).reverse

/-- Scanner for `text.split(/\s+/).filter(Boolean).length`: counts maximal
runs of non-whitespace characters.  The flag records whether the previous
character belonged to a word. -/
def wordCountAux : List Char → Bool → Nat
  | [], _ => 0
  | c :: rest, inWord =>
    if isSpaceChar c then wordCountAux rest false
    else (if inWord then 0 else 1) + wordCountAux rest true

/-- `wordCount` of `evaluateTranscript`: the transcript is trimmed first. -/
def wordCountOf (transcript : List Char) : Nat :=
  wordCountAux (trimChars transcript) false

/-- Does `needle` occur at the head of `hay`? -/
def matchesAt : List Char → List Char → Bool
  | [], _ => true
  | _ :: _, [] => false
  | n :: ns, h :: hs => n = h && matchesAt ns hs

/-- Substring containment, the model of `RegExp.test` for an alternation of
plain literals (and of `String.prototype.includes`). -/
def containsSub (needle : List Char) : List Char → Bool
  | [] => matchesAt needle []
  | c :: rest => matchesAt needle (c :: rest) || containsSub needle rest

/-- Does any of the literal alternatives occur in `l`? -/
def anyTokenSub (toks : List (List Char)) (l : List Char) : Bool :=
  toks.any (fun t => containsSub t l)

/-- Lower-cased trimmed transcript (`const lower = text.toLowerCase()`). -/
def lowerOf (transcript : List Char) : List Char :=
  (trimChars transcript).map Char.toLower

/-- Alternatives of `/(situation|context|when|at the time|project)/`. -/
def situationTokens : List (List Char) :=
  ["situation", "context", "when", "at the time", "project"].map String.toList

/-- Alternatives of `/(task|goal|objective|responsible)/`. -/
def taskTokens : List (List Char) :=
  ["task", "goal", "objective", "responsible"].map String.toList

/-- Alternatives of the `hasAction` pattern. -/
def actionTokens : List (List Char) :=
  ["i did", "i built", "i led", "implemented", "designed", "debugged",
    "created", "improved", "migrated", "optimized"].map String.toList

/-- Alternatives of the `hasResult` pattern. -/
def resultTokens : List (List Char) :=
  ["result", "outcome", "impact", "improved", "reduced", "increased",
    "saved", "delivered", "launched"].map String.toList

def hasSituation (t : List Char) : Bool := anyTokenSub situationTokens (lowerOf t)

def hasTask (t : List Char) : Bool := anyTokenSub taskTokens (lowerOf t)

def hasAction (t : List Char) : Bool := anyTokenSub actionTokens (lowerOf t)

def hasResult (t : List Char) : Bool := anyTokenSub resultTokens (lowerOf t)

/-- Unit alternatives of the `hasMetric` pattern. -/
def metricUnits : List (List Char) :=
  ["ms", "sec", "seconds", "minutes", "hours", "days", "weeks", "months",
    "users", "customers", "tickets", "bugs", "k", "m"].map String.toList

def metricUnitAt (l : List Char) : Bool :=
  metricUnits.any (fun u => matchesAt u l)

/-- Scanner for `/(\d+%|\d+\s*(ms|sec|...))/i`: the pattern matches iff some
digit is either immediately followed by `%`, or followed by optional
whitespace and then a unit token.  Run on the lower-cased text, which is
equivalent to the case-insensitive flag for this all-lowercase pattern. -/
def hasMetricScan : List Char → Bool
  | [] => false
  | c :: rest =>
    (c.isDigit &&
      (match rest with
        | '%' :: _ => true
        | _ => metricUnitAt (rest.dropWhile isSpaceChar)))
    || hasMetricScan rest

def hasMetric (t : List Char) : Bool := hasMetricScan (lowerOf t)

/-- Alternatives of the filler regex, in source order. -/
def fillerTokens : List (List Char) :=
  ["um", "uh", "like", "you know", "basically", "kind of", "sort of"].map String.toList

/-- JavaScript `\w` (`[A-Za-z0-9_]`). -/
def isWordChar (c : Char) : Bool := c.isAlpha || c.isDigit || c = '_'

/-- The trailing `\b` of the filler regex: the character following the match,
if any, must not be a word character (all filler tokens end in a letter). -/
def boundaryAfter : List Char → Bool
  | [] => true
  | c :: _ => !isWordChar c

/-- First alternative (in source order) matching at the head of `l`, with its
trailing word boundary; returns the length of the match. -/
def firstFillerLen : List (List Char) → List Char → Option Nat
  | [], _ => none
  | t :: ts, l =>
    if matchesAt t l && boundaryAfter (l.drop t.length) then some t.length
    else firstFillerLen ts l

/-- Global-match counter for `/\b(um|uh|like|you know|basically|kind of|sort
of)\b/g`: scan left to right, attempting a match at each position whose left
neighbour is not a word character (the leading `\b`; all alternatives start
with a letter); on success count it and resume after the match (whose last
character is a letter, hence a word character).  The fuel argument only
bounds the recursion and is at least the number of scan steps. -/
def countFillersFuel : Nat → List Char → Bool → Nat
  | 0, _, _ => 0
  | _ + 1, [], _ => 0
  | fuel + 1, c :: rest, prevWord =>
    match (if prevWord then none else firstFillerLen fillerTokens (c :: rest)) with
    | some n => 1 + countFillersFuel fuel (rest.drop (n - 1)) true
    | none => countFillersFuel fuel rest (isWordChar c)

/-- `fillerCount` of `evaluateTranscript`, counted on the lower-cased text. -/
def fillerCountOf (t : List Char) : Nat :=
  countFillersFuel (lowerOf t).length (lowerOf t) false

/-- The `rubricBreakdown` record of `evaluateTranscript`. -/
structure RubricBreakdown where
  structureSTAR : Int
  ownershipAndAction : Int
  resultsAndImpact : Int
  metricsSpecificity : Int
  clarityAndConciseness : Int
deriving Repr, DecidableEq

/-- `ClarityAndConciseness`: base `max(6, 20 - min(10, fillerCount*2))`, then
`-6` when `wordCount < 35` and `-4` when `wordCount > 260`, with no floor
reapplied after the penalties. -/
def clarityValue (t : List Char) : Int :=
  let base : Int := max 6 (20 - min 10 ((fillerCountOf t : Int) * 2))
  let afterShort : Int := if wordCountOf t < 35 then base - 6 else base
  if wordCountOf t > 260 then afterShort - 4 else afterShort

def rubricBreakdownOf (t : List Char) : RubricBreakdown :=
  { structureSTAR := (if hasSituation t then 12 else 4) + (if hasTask t then 8 else 2)
    ownershipAndAction := if hasAction t then 22 else 8
    resultsAndImpact := if hasResult t then 22 else 8
    metricsSpecificity := if hasMetric t then 18 else 4
    clarityAndConciseness := clarityValue t }

/-- `Object.values(rubricBreakdown).reduce((sum, n) => sum + n, 0)`, in the
insertion order of the record. -/
def rawScore (t : List Char) : Int :=
  (rubricBreakdownOf t).structureSTAR + (rubricBreakdownOf t).ownershipAndAction +
    (rubricBreakdownOf t).resultsAndImpact + (rubricBreakdownOf t).metricsSpecificity +
    (rubricBreakdownOf t).clarityAndConciseness

/-- `score = Math.max(18, Math.min(94, Math.round(score)))`; the sum is an
integer, so `Math.round` is the identity. -/
def finalScore (t : List Char) : Int := max 18 (min 94 (rawScore t))

def tipSituationTask : String :=
  "Open with situation + goal so the interviewer has context."

def tipAction : String :=
  "Emphasize specific actions you personally took, not just team outcomes."

def tipResult : String :=
  "Close with outcomes and what changed because of your work."

def tipMetric : String :=
  "Add concrete metrics (%, time saved, quality improvements) to strengthen credibility."

def tipExpand : String :=
  "Expand your answer with more detail and structure (STAR format)."

def tipFiller : String :=
  "Reduce filler words to improve confidence and executive presence."

def tipStrong : String :=
  "Strong baseline. Tighten pacing and keep impact statements crisp."

/-- The `improvementTips` accumulation of `evaluateTranscript`. -/
def improvementTipsOf (t : List Char) : List String :=
  let tips :=
    (if !hasSituation t || !hasTask t then [tipSituationTask] else []) ++
      (if !hasAction t then [tipAction] else []) ++
      (if !hasResult t then [tipResult] else []) ++
      (if !hasMetric t then [tipMetric] else []) ++
      (if wordCountOf t < 50 then [tipExpand] else []) ++
      (if fillerCountOf t > 3 then [tipFiller] else [])
  if tips.isEmpty then [tipStrong] else tips

def feedbackBaseline : String :=
  "Good baseline answer, but there is room to improve structure and impact clarity."

def feedbackStrong : String :=
  "Strong answer with good structure and clear impact. Tighten phrasing for maximum confidence."

def feedbackNeedsStructure : String :=
  "Answer needs more structure and specificity. Use STAR and add measurable outcomes."

/-- The three-tier feedback selection of `evaluateTranscript`. -/
def feedbackOf (t : List Char) : String :=
  if finalScore t ≥ 75 then feedbackStrong
  else if finalScore t < 50 then feedbackNeedsStructure
  else feedbackBaseline

/-- The templated `scoreExplanation` sentence of `evaluateTranscript`. -/
def scoreExplanationOf (t : List Char) : String :=
  "Score reflects STAR structure (" ++ toString (rubricBreakdownOf t).structureSTAR ++
    "/20), ownership/actions (" ++ toString (rubricBreakdownOf t).ownershipAndAction ++
    "/22), outcomes (" ++ toString (rubricBreakdownOf t).resultsAndImpact ++
    "/22), metrics (" ++ toString (rubricBreakdownOf t).metricsSpecificity ++
    "/18), and clarity (" ++ toString (rubricBreakdownOf t).clarityAndConciseness ++ "/20)."

/-- Result record of `evaluateTranscript`.  The `highlights` field (the output
of `extractHighlights`) is not modelled: no claim refers to it and it feeds
back into no score. -/
structure EvaluationResult where
  score : Int
  feedback : String
  improvementTips : List String
  rubricBreakdown : RubricBreakdown
  scoreExplanation : String
deriving Repr, DecidableEq

/-- `evaluateTranscript` of the rubric evaluator (`public/app.js` and the
current server file): trims the transcript, runs the keyword detectors,
fills the rubric breakdown, clamps the summed score to `[18, 94]` and
assembles tips, feedback and explanation. -/
def evaluateTranscript (transcript : List Char) : EvaluationResult :=
  { score := finalScore transcript
    feedback := feedbackOf transcript
    improvementTips := improvementTipsOf transcript
    rubricBreakdown := rubricBreakdownOf transcript
    scoreExplanation := scoreExplanationOf transcript }

/-- `Math.round`, which rounds halves toward positive infinity. -/
def jsRound (q : ℚ) : Int := ⌊q + 1 / 2⌋

/-- The per-answer calibration of `/api/analyze-interview`:
`Number(item.score) || 0` (absent or non-numeric model score becomes `0`,
modelled by `Option`), blended `0.55 / 0.45` with the local rubric score,
rounded and clamped to `[18, 94]`. -/
def calibratedScore (externalScore : Option ℚ) (transcript : List Char) : Int :=
  let localResult := evaluateTranscript transcript
  let modelScore : ℚ := match externalScore with | none => 0 | some q => q
  let blended : Int := jsRound (modelScore * (55 / 100) + (localResult.score : ℚ) * (45 / 100))
  max 18 (min 94 blended)

def clamp (lo hi x : Int) : Int := max lo (min hi x)

/-- The calibration rule exactly as the spec words it:
`clamp(round(externalScore*0.55 + localScore*0.45), 18, 94)`; stated
separately so the source definition can be proved to refine it. -/
def calibratedScoreSpec (externalScore : ℚ) (transcript : List Char) : Int :=
  clamp 18 94
    (jsRound (externalScore * (55 / 100) + ((evaluateTranscript transcript).score : ℚ) * (45 / 100)))

/-- The language allow-list of `normalizeLanguage`. -/
def allowedLanguages : List String := ["English", "Dutch", "French", "Romanian", "Russian"]

/-- `normalizeLanguage`: anything outside the allow-list maps to English. -/
def normalizeLanguage (language : String) : String :=
  if allowedLanguages.contains language then language else "English"

def englishSignals : List (List Char) :=
  [" the ", " and ", " with ", " your ", " about ", " tell me "].map String.toList

def dutchSignals : List (List Char) :=
  [" de ", " het ", " een ", " je ", " jouw ", " wat ", " waarom "].map String.toList

def frenchSignals : List (List Char) :=
  [" le ", " la ", " les ", " des ", " avec ", " pourquoi ", " vous "].map String.toList

def romanianSignals : List (List Char) :=
  [" și ", " este ", " care ", " pentru ", " cum ", " de ce ", " într-"].map String.toList

def russianSignals : List (List Char) :=
  [" как ", " что ", " это ", " для ", " почему ", " вы ", " когда "].map String.toList

/-- The `languageSignals` table of `looksLikeLanguage` (with the `|| []`
fallback of the lookup). -/
def languageSignals (lang : String) : List (List Char) :=
  if lang = "English" then englishSignals
  else if lang = "Dutch" then dutchSignals
  else if lang = "French" then frenchSignals
  else if lang = "Romanian" then romanianSignals
  else if lang = "Russian" then russianSignals
  else []

/-- `reduce((sum, token) => sum + (lower.includes(token) ? 1 : 0), 0)`. -/
def signalHits (toks : List (List Char)) (lower : List Char) : Nat :=
  toks.foldl (fun sum tok => sum + (if containsSub tok lower then 1 else 0)) 0

/-- `looksLikeLanguage` of `public/app.js`: blank text never looks like any
language; for English one English signal suffices; otherwise the target
language must score at least one signal and at least as many as English. -/
def looksLikeLanguage (text : List Char) (language : String) : Bool :=
  let lower := text.map Char.toLower
  if (trimChars lower).isEmpty then false
  else
    let selected := normalizeLanguage language
    let selectedHits := signalHits (languageSignals selected) lower
    let englishHits := signalHits (languageSignals "English") lower
    if selected = "English" then decide (1 ≤ englishHits)
    else decide (1 ≤ selectedHits) && decide (englishHits ≤ selectedHits)

/-- Target-language signal count of a question text, as computed inside
`looksLikeLanguage`. -/
def targetHits (language : String) (text : List Char) : Nat :=
  signalHits (languageSignals (normalizeLanguage language)) (text.map Char.toLower)

/-- Default-language (English) signal count of a question text. -/
def englishHitsOf (text : List Char) : Nat :=
  signalHits englishSignals (text.map Char.toLower)

/-- A generated question as the server handles it. -/
structure Question where
  category : String
  question : List Char
deriving Repr, DecidableEq

/-- `forceQuestionsLanguage`: the external rewriting service is a parameter
(`none` models a reply whose `questions` field is not an array); empty
batches, the default language and a missing API key are accepted as-is; a
batch with no mismatched question is accepted as-is; a rewrite of the wrong
length is discarded. -/
def forceQuestionsLanguage (rewriteService : List Question → Option (List Question))
    (hasApiKey : Bool) (questions : List Question) (language : String) : List Question :=
  let selected := normalizeLanguage language
  if questions.isEmpty = true ∨ selected = "English" ∨ hasApiKey = false then questions
  else
    let mismatched := questions.any (fun q => !looksLikeLanguage q.question selected)
    if mismatched = false then questions
    else
      match rewriteService questions with
      | none => questions
      | some rewritten =>
        if rewritten.length ≠ questions.length then questions else rewritten

/-- `FOLLOW_UP_LIMIT` of `public/app.js`. -/
def FOLLOW_UP_LIMIT : Nat := 4

/-- A question in the client session queue. -/
structure SessionQuestion where
  category : String
  question : String
  isFollowUp : Bool
deriving Repr, DecidableEq

/-- The slice of the client `state` object that the follow-up policy touches. -/
structure SessionState where
  questions : List SessionQuestion
  currentIndex : Nat
  generatedFollowUps : Nat
  dynamicFollowUpsEnabled : Bool
deriving Repr, DecidableEq

/-- `maybeInsertFollowUp` of `public/app.js`: the external generator is a
parameter (`none` models a failed fetch, a non-ok response or a missing
`followUpQuestion`; an empty string models a falsy one).  Under the guard, a
returned follow-up is spliced immediately after the current position with the
category inherited and `isFollowUp = true`, and the counter is incremented. -/
def maybeInsertFollowUp (generator : SessionQuestion → String → Option String)
    (s : SessionState) (questionObj : SessionQuestion) (transcript : String) : SessionState :=
  if s.dynamicFollowUpsEnabled = false ∨ questionObj.isFollowUp = true ∨
      FOLLOW_UP_LIMIT ≤ s.generatedFollowUps then s
  else
    match generator questionObj transcript with
    | none => s
    | some fu =>
      if fu.isEmpty then s
      else
        { s with
          questions := s.questions.take (s.currentIndex + 1) ++
            ⟨questionObj.category, fu, true⟩ :: s.questions.drop (s.currentIndex + 1)
          generatedFollowUps := s.generatedFollowUps + 1 }

/-- A session-long sequence of answer submissions: `saveAnswerAndContinue`
invokes `maybeInsertFollowUp` once per eligible answered question. -/
def processAnswers (generator : SessionQuestion → String → Option String)
    (s : SessionState) (events : List (SessionQuestion × String)) : SessionState :=
  events.foldl (fun st ev => maybeInsertFollowUp generator st ev.1 ev.2) s

/-- A per-answer result row as consumed by `makeNextStepPlan` (only the score
and the category are read). -/
structure ResultRow where
  score : Int
  category : String
deriving Repr, DecidableEq

/-- The comparator `(a, b) => a.score - b.score` as an order. -/
def scoreLE (a b : ResultRow) : Prop := a.score ≤ b.score

instance : DecidableRel scoreLE := fun a b => Int.decLe a.score b.score

instance : IsTotal ResultRow scoreLE := ⟨fun a b => Int.le_total a.score b.score⟩

instance : IsTrans ResultRow scoreLE := ⟨fun _ _ _ h1 h2 => le_trans h1 h2⟩

/-- `results.slice().sort((a, b) => a.score - b.score)`: a stable ascending
sort by score. -/
def sortByScore (results : List ResultRow) : List ResultRow :=
  results.insertionSort scoreLE

/-- `.slice(0, 3).map(item => item.category)`: categories of the three lowest
scores. -/
def weakCategories (results : List ResultRow) : List String :=
  ((sortByScore results).take 3).map (fun item => item.category)

/-- `[...new Set(weak)]`: deduplicate keeping the first occurrence of each
category, preserving order. -/
def dedupFirst : List String → List String
  | [] => []
  | x :: xs => x :: (dedupFirst xs).filter (fun y => y ≠ x)

def practicePlanDefault : String :=
  "Continue regular practice with timed simulations and concise STAR answers."

/-- `makeNextStepPlan` of the analysis endpoint. -/
def makeNextStepPlan (results : List ResultRow) : String :=
  let weak := weakCategories results
  if weak.isEmpty then practicePlanDefault
  else
    "Next-step plan: run 2 focused drills on " ++
      String.intercalate ", " (dedupFirst weak) ++
      " and include one metric + one trade-off in every answer."

/-- The result set of the spec scenario for the next-step plan. -/
def scenarioResults : List ResultRow :=
  [⟨90, "Technical"⟩, ⟨40, "Behavioral"⟩, ⟨60, "Situational"⟩]

/-- `Math.round` is monotone. -/
theorem jsRound_mono {a b : ℚ} (h : a ≤ b) : jsRound a ≤ jsRound b :=
  Int.floor_le_floor (by linarith)

/-- C1: for every input transcript, the rubric evaluator returns a score with
`18 ≤ score ≤ 94`. -/
theorem c1_evaluate_score_bounds :
    ∀ t : List Char, 18 ≤ (evaluateTranscript t).score ∧ (evaluateTranscript t).score ≤ 94 := by
  intro t
  show 18 ≤ finalScore t ∧ finalScore t ≤ 94
  unfold finalScore
  exact ⟨le_max_left _ _, max_le (by norm_num) (min_le_left _ _)⟩

/-- C2: the calibrated per-answer score equals
`clamp(round(externalScore*0.55 + localScore*0.45), 18, 94)` where the
external score defaults to `0` when absent or non-numeric. -/
theorem c2_calibration_formula :
    ∀ (externalScore : Option ℚ) (t : List Char),
      calibratedScore externalScore t = calibratedScoreSpec (externalScore.getD 0) t := by
  intro o t
  cases o <;> rfl

/-- C3 counterexample: on the empty transcript the rubric evaluator returns
score 40, not 18, and the filler tip is absent from the improvement tips
(only five of the six tip messages appear). -/
theorem c3_counterexample :
    (evaluateTranscript (String.toList "")).score ≠ 18 ∧
      tipFiller ∉ (evaluateTranscript (String.toList "")).improvementTips := by
  decide

/-- C3 (amended): on the empty transcript the rubric evaluator returns score
exactly 40, its improvement tips are exactly the five messages for
situation/task, action, result, metric and length (the filler tip is absent
because `fillerCount = 0`), and the feedback is the needs-structure tier text
because the score is below 50. -/
theorem c3_empty_transcript :
    (evaluateTranscript (String.toList "")).score = 40 ∧
      (evaluateTranscript (String.toList "")).improvementTips =
        [tipSituationTask, tipAction, tipResult, tipMetric, tipExpand] ∧
      (evaluateTranscript (String.toList "")).feedback = feedbackNeedsStructure ∧
      (evaluateTranscript (String.toList "")).score < 50 := by
  decide

/-- C4 counterexample: no transcript has both word-count penalties apply,
since the word count cannot be below 35 and above 260 at once (the claimed
existence of a transcript with both penalties is false). -/
theorem c4_counterexample :
    ¬ ∃ t : List Char, wordCountOf t < 35 ∧ 260 < wordCountOf t := by
  rintro ⟨t, h1, h2⟩
  omega

/-- C4 (amended): `ClarityAndConciseness` equals
`max(6, 20 - min(10, fillerCount*2))` minus 6 when `wordCount < 35` and minus
4 when `wordCount > 260`; at most one of the two penalties can apply to a
given transcript, and the floor of 6 is not reapplied after the penalties, so
for some transcript the final dimension value is below 6. -/
theorem c4_clarity_penalties :
    (∀ t : List Char,
        clarityValue t =
          max 6 (20 - min 10 ((fillerCountOf t : Int) * 2)) -
            (if wordCountOf t < 35 then 6 else 0) -
            (if wordCountOf t > 260 then 4 else 0)) ∧
      (∀ t : List Char, ¬(wordCountOf t < 35 ∧ wordCountOf t > 260)) ∧
      clarityValue (String.toList "um um um um um") < 6 := by
  refine ⟨?_, ?_, by decide⟩
  · intro t
    simp only [clarityValue]
    split_ifs <;> ring
  · intro t h
    omega

/-- C5: the five dimension values embedded in the rubric evaluator's
`scoreExplanation` string sum exactly to the pre-clamp raw score of the
transcript. -/
theorem c5_explanation_sum :
    ∀ t : List Char, ∃ v1 v2 v3 v4 v5 : Int,
      scoreExplanationOf t =
          "Score reflects STAR structure (" ++ toString v1 ++ "/20), ownership/actions (" ++
            toString v2 ++ "/22), outcomes (" ++ toString v3 ++ "/22), metrics (" ++
            toString v4 ++ "/18), and clarity (" ++ toString v5 ++ "/20)." ∧
        v1 + v2 + v3 + v4 + v5 = rawScore t ∧
        (evaluateTranscript t).scoreExplanation = scoreExplanationOf t := by
  intro t
  exact ⟨_, _, _, _, _, rfl, rfl, rfl⟩

/-- C6 counterexample: on the spec scenario
`[{90, Technical}, {40, Behavioral}, {60, Situational}]` the plan does NOT
exclude Technical: with only three results all of them are among the three
lowest, so Technical appears in the deduplicated category list and in the
emitted plan text. -/
theorem c6_counterexample :
    "Technical" ∈ dedupFirst (weakCategories scenarioResults) ∧
      makeNextStepPlan scenarioResults =
        "Next-step plan: run 2 focused drills on Behavioral, Situational, Technical and include one metric + one trade-off in every answer." := by
  decide

/-- C6 (amended): the next-step plan sorts the results ascending by score
(a stable sorted permutation), takes the three lowest and deduplicates their
categories preserving order; on the scenario the plan names Behavioral first
(lowest), then Situational, then Technical — Technical is included because
all three results are among the three lowest. -/
theorem c6_next_step_plan :
    (∀ rs : List ResultRow, List.Sorted scoreLE (sortByScore rs) ∧ (sortByScore rs).Perm rs) ∧
      weakCategories scenarioResults = ["Behavioral", "Situational", "Technical"] ∧
      makeNextStepPlan scenarioResults =
        "Next-step plan: run 2 focused drills on Behavioral, Situational, Technical and include one metric + one trade-off in every answer." := by
  refine ⟨fun rs => ⟨List.sorted_insertionSort scoreLE rs, List.perm_insertionSort scoreLE rs⟩,
    by decide, by decide⟩

/-- C10: for a fixed transcript, the calibrated score is monotone
non-decreasing in the external model-provided score. -/
theorem c10_calibration_monotone :
    ∀ (t : List Char) (e1 e2 : ℚ), e1 ≤ e2 →
      calibratedScore (some e1) t ≤ calibratedScore (some e2) t := by
  intro t e1 e2 h
  have hmul : e1 * (55 / 100) + ((evaluateTranscript t).score : ℚ) * (45 / 100) ≤
      e2 * (55 / 100) + ((evaluateTranscript t).score : ℚ) * (45 / 100) := by
    have := mul_le_mul_of_nonneg_right h (by norm_num : (0 : ℚ) ≤ 55 / 100)
    linarith
  show max 18 (min 94 (jsRound (e1 * (55 / 100) +
        ((evaluateTranscript t).score : ℚ) * (45 / 100)))) ≤
      max 18 (min 94 (jsRound (e2 * (55 / 100) +
        ((evaluateTranscript t).score : ℚ) * (45 / 100))))
  exact max_le_max (le_refl 18) (min_le_min (le_refl 94) (jsRound_mono hmul))

/-- Witness for C10 at a concrete pair of external scores. -/
theorem c10_witness :
    (0 : ℚ) ≤ 100 ∧ calibratedScore (some 0) [] ≤ calibratedScore (some 100) [] :=
  ⟨by norm_num, c10_calibration_monotone [] 0 100 (by norm_num)⟩

/-- A successful head match only uses characters of the haystack. -/
theorem matchesAt_mem : ∀ n h : List Char, matchesAt n h = true → ∀ c ∈ n, c ∈ h := by
  intro n
  induction n with
  | nil =>
    intro h _ c hc
    cases hc
  | cons a ns ih =>
    intro h hm c hc
    cases h with
    | nil => simp [matchesAt] at hm
    | cons b hs =>
      simp only [matchesAt, Bool.and_eq_true, decide_eq_true_eq] at hm
      rcases List.mem_cons.mp hc with rfl | hc2
      · exact hm.1 ▸ List.mem_cons_self _ _
      · exact List.mem_cons_of_mem b (ih hs hm.2 c hc2)

/-- A substring occurrence only uses characters of the haystack. -/
theorem containsSub_mem : ∀ n l : List Char, containsSub n l = true → ∀ c ∈ n, c ∈ l := by
  intro n l
  induction l with
  | nil =>
    intro h c hc
    exact matchesAt_mem n [] h c hc
  | cons x xs ih =>
    intro h c hc
    simp only [containsSub, Bool.or_eq_true] at h
    rcases h with h1 | h2
    · exact matchesAt_mem _ _ h1 c hc
    · exact List.mem_cons_of_mem x (ih h2 c hc)

/-- A fold of zero contributions keeps the accumulator. -/
theorem signalHits_foldl_const : ∀ (toks : List (List Char)) (l : List Char) (init : Nat),
    (∀ tok ∈ toks, containsSub tok l = false) →
    toks.foldl (fun sum tok => sum + (if containsSub tok l then 1 else 0)) init = init := by
  intro toks
  induction toks with
  | nil =>
    intro l init _
    rfl
  | cons t ts ih =>
    intro l init h
    have ht := h t (List.mem_cons_self t ts)
    rw [List.foldl_cons]
    have hstep : init + (if containsSub t l then 1 else 0) = init := by
      rw [ht]
      simp
    rw [hstep]
    exact ih l init fun tok hm => h tok (List.mem_cons_of_mem t hm)

/-- An empty trim means the whole list is whitespace. -/
theorem all_space_of_trim_empty (l : List Char) (h : trimChars l = []) :
    ∀ c ∈ l, isSpaceChar c = true := by
  unfold trimChars at h
  rw [List.reverse_eq_nil_iff, List.dropWhile_eq_nil_iff] at h
  have h2 : ∀ x ∈ l.dropWhile isSpaceChar, isSpaceChar x = true := by
    intro x hx
    exact h x (List.mem_reverse.mpr hx)
  intro c hc
  rw [← @List.takeWhile_append_dropWhile _ isSpaceChar l] at hc
  rcases List.mem_append.mp hc with h3 | h3
  · exact List.mem_takeWhile_imp h3
  · exact h2 c h3

/-- Signal tokens containing a non-whitespace character score zero hits on an
all-whitespace text. -/
theorem signalHits_zero_of_all_space (toks : List (List Char)) (l : List Char)
    (hl : ∀ c ∈ l, isSpaceChar c = true)
    (ht : ∀ tok ∈ toks, ∃ c ∈ tok, isSpaceChar c = false) :
    signalHits toks l = 0 := by
  unfold signalHits
  apply signalHits_foldl_const
  intro tok hm
  rcases ht tok hm with ⟨c, hctok, hcs⟩
  cases hcase : containsSub tok l
  · rfl
  · exact absurd (hl c (containsSub_mem tok l hcase c hctok)) (by simp [hcs])

/-- `normalizeLanguage` always lands in the allow-list. -/
theorem normalizeLanguage_cases (language : String) :
    normalizeLanguage language = "English" ∨ normalizeLanguage language = "Dutch" ∨
      normalizeLanguage language = "French" ∨ normalizeLanguage language = "Romanian" ∨
      normalizeLanguage language = "Russian" := by
  unfold normalizeLanguage
  split
  · case isTrue h =>
    have hmem : language ∈ allowedLanguages := by
      simpa using h
    simp only [allowedLanguages, List.mem_cons, List.mem_singleton] at hmem
    tauto
  · exact Or.inl rfl

/-- Every signal token of every non-default language holds a non-whitespace
character. -/
theorem signals_have_nonspace :
    ∀ lang ∈ ["Dutch", "French", "Romanian", "Russian"],
      ∀ tok ∈ languageSignals lang, ∃ c ∈ tok, isSpaceChar c = false := by
  decide

/-- Blank questions score zero target-language hits. -/
theorem targetHits_zero_of_blank (text : List Char) (language : String)
    (hne : normalizeLanguage language ≠ "English")
    (hblank : trimChars (text.map Char.toLower) = []) :
    targetHits language text = 0 := by
  apply signalHits_zero_of_all_space
  · exact all_space_of_trim_empty _ hblank
  · rcases normalizeLanguage_cases language with h | h | h | h | h
    · exact absurd h hne
    all_goals rw [h]
    · exact signals_have_nonspace "Dutch" (by decide)
    · exact signals_have_nonspace "French" (by decide)
    · exact signals_have_nonspace "Romanian" (by decide)
    · exact signals_have_nonspace "Russian" (by decide)

/-- The mismatch condition of `looksLikeLanguage` for a non-default language:
the question fails the check exactly when it has zero target-language hits or
strictly fewer target-language hits than English hits. -/
theorem looksLike_false_iff (text : List Char) (language : String)
    (hne : normalizeLanguage language ≠ "English") :
    looksLikeLanguage text language = false ↔
      (targetHits language text = 0 ∨ targetHits language text < englishHitsOf text) := by
  by_cases hblank : trimChars (text.map Char.toLower) = []
  · constructor
    · intro _
      exact Or.inl (targetHits_zero_of_blank text language hne hblank)
    · intro _
      simp [looksLikeLanguage, hblank]
  · have hbe : (trimChars (text.map Char.toLower)).isEmpty = false := by
      cases hx : trimChars (text.map Char.toLower) with
      | nil => exact absurd hx hblank
      | cons a l => rfl
    have hE : languageSignals "English" = englishSignals := rfl
    unfold looksLikeLanguage targetHits englishHitsOf
    simp only [hbe, Bool.false_eq_true, if_false, hne, ite_false, hE,
      Bool.and_eq_false_iff, decide_eq_false_iff_not, not_le, Nat.lt_one_iff]

/-- C7 counterexample: for Dutch, a question with exactly one Dutch signal and
one English signal (a tie) passes the language check, i.e. is NOT classified
as mismatched, although the claimed condition (English count ≥ target count)
would classify it as mismatched. -/
theorem c7_counterexample :
    targetHits "Dutch" (String.toList "a de the b") = 1 ∧
      englishHitsOf (String.toList "a de the b") = 1 ∧
      looksLikeLanguage (String.toList "a de the b") "Dutch" = true := by
  decide

/-- C7 (amended): for every non-default requested language, a question is
classified as mismatched exactly when it matches zero target-language signals
or strictly fewer target-language signals than default-language (English)
signals; for the default language every batch is accepted as-is with no
check. -/
theorem c7_mismatch_rule :
    (∀ (text : List Char) (language : String), normalizeLanguage language ≠ "English" →
        ((!looksLikeLanguage text language) = true ↔
          (targetHits language text = 0 ∨ targetHits language text < englishHitsOf text))) ∧
      (∀ (rewriteService : List Question → Option (List Question)) (hasApiKey : Bool)
          (questions : List Question),
        forceQuestionsLanguage rewriteService hasApiKey questions "English" = questions) := by
  constructor
  · intro text language hne
    rw [Bool.not_eq_true']
    exact looksLike_false_iff text language hne
  · intro svc k qs
    have hEn : normalizeLanguage "English" = "English" := by decide
    simp [forceQuestionsLanguage, hEn]

/-- Witness for C7 at a concrete non-default language and question text. -/
theorem c7_witness :
    normalizeLanguage "Dutch" ≠ "English" ∧
      ((!looksLikeLanguage (String.toList "hoe werkt dit") "Dutch") = true ↔
        (targetHits "Dutch" (String.toList "hoe werkt dit") = 0 ∨
          targetHits "Dutch" (String.toList "hoe werkt dit") <
            englishHitsOf (String.toList "hoe werkt dit"))) :=
  ⟨by decide, c7_mismatch_rule.1 (String.toList "hoe werkt dit") "Dutch" (by decide)⟩

/-- C8: whenever the rewriting service replies with something that is not an
array or with a batch of a different length, the rewrite is discarded and the
original questions are returned unchanged. -/
theorem c8_rewrite_failopen :
    ∀ (rewriteService : List Question → Option (List Question)) (hasApiKey : Bool)
      (questions : List Question) (language : String),
      (rewriteService questions = none ∨
        ∃ r, rewriteService questions = some r ∧ r.length ≠ questions.length) →
      forceQuestionsLanguage rewriteService hasApiKey questions language = questions := by
  intro svc k qs lang h
  simp only [forceQuestionsLanguage]
  split
  · rfl
  · split
    · rfl
    · rcases h with hnone | ⟨r, hr, hlen⟩
      · rw [hnone]
      · rw [hr]
        simp only []
        rw [if_pos hlen]

/-- Witness for C8: a service whose reply has no questions array leaves a
concrete one-question batch unchanged. -/
theorem c8_witness :
    (fun _ : List Question => (none : Option (List Question)))
        [⟨"Behavioral", String.toList "Q"⟩] = none ∧
      forceQuestionsLanguage (fun _ => none) true [⟨"Behavioral", String.toList "Q"⟩] "Dutch" =
        [⟨"Behavioral", String.toList "Q"⟩] :=
  ⟨rfl, c8_rewrite_failopen _ _ _ _ (Or.inl rfl)⟩

/-- One answer submission never pushes the follow-up counter past the limit. -/
theorem followUps_le_of_step (generator : SessionQuestion → String → Option String)
    (s : SessionState) (q : SessionQuestion) (tr : String)
    (h : s.generatedFollowUps ≤ FOLLOW_UP_LIMIT) :
    (maybeInsertFollowUp generator s q tr).generatedFollowUps ≤ FOLLOW_UP_LIMIT := by
  unfold maybeInsertFollowUp
  split
  · exact h
  · case isFalse hguard =>
    split
    · exact h
    · split
      · exact h
      · push_neg at hguard
        simp only [FOLLOW_UP_LIMIT] at *
        omega

/-- C9: across any sequence of answer submissions the follow-up counter never
exceeds `FOLLOW_UP_LIMIT` (4); a follow-up is only generated when follow-ups
are enabled, the answered question is itself not a follow-up and the counter
is below the limit (otherwise the state is untouched for every generator);
and an inserted follow-up is spliced immediately after the current position
with the category inherited and `isFollowUp = true`, incrementing the
counter. -/
theorem c9_follow_up_policy :
    (∀ (generator : SessionQuestion → String → Option String) (s : SessionState)
        (events : List (SessionQuestion × String)),
        s.generatedFollowUps ≤ FOLLOW_UP_LIMIT →
          (processAnswers generator s events).generatedFollowUps ≤ FOLLOW_UP_LIMIT) ∧
      (∀ (generator : SessionQuestion → String → Option String) (s : SessionState)
          (q : SessionQuestion) (tr : String),
        (s.dynamicFollowUpsEnabled = false ∨ q.isFollowUp = true ∨
            FOLLOW_UP_LIMIT ≤ s.generatedFollowUps) →
          maybeInsertFollowUp generator s q tr = s) ∧
      (∀ (generator : SessionQuestion → String → Option String) (s : SessionState)
          (q : SessionQuestion) (tr : String) (fu : String),
        s.dynamicFollowUpsEnabled = true → q.isFollowUp = false →
          s.generatedFollowUps < FOLLOW_UP_LIMIT →
          generator q tr = some fu → fu.isEmpty = false →
          (maybeInsertFollowUp generator s q tr).questions =
              s.questions.take (s.currentIndex + 1) ++
                ⟨q.category, fu, true⟩ :: s.questions.drop (s.currentIndex + 1) ∧
            (maybeInsertFollowUp generator s q tr).generatedFollowUps =
              s.generatedFollowUps + 1) := by
  refine ⟨?_, ?_, ?_⟩
  · intro gen s events h
    induction events generalizing s with
    | nil => exact h
    | cons ev evs ih => exact ih _ (followUps_le_of_step gen s ev.1 ev.2 h)
  · intro gen s q tr h
    unfold maybeInsertFollowUp
    rw [if_pos h]
  · intro gen s q tr fu h1 h2 h3 hgen hfu
    unfold maybeInsertFollowUp
    rw [if_neg (by push_neg; exact ⟨by simp [h1], by simp [h2], by omega⟩)]
    rw [hgen]
    simp only []
    rw [if_neg (by simp [hfu])]
    exact ⟨rfl, rfl⟩

/-- Witness for C9 at a concrete session and one submitted answer. -/
theorem c9_witness :
    (⟨[⟨"Behavioral", "Q1", false⟩, ⟨"Behavioral", "Q2", false⟩], 0, 0, true⟩ :
        SessionState).generatedFollowUps ≤ FOLLOW_UP_LIMIT ∧
      (processAnswers (fun _ _ => some "Can you go one level deeper?")
          ⟨[⟨"Behavioral", "Q1", false⟩, ⟨"Behavioral", "Q2", false⟩], 0, 0, true⟩
          [(⟨"Behavioral", "Q1", false⟩, "my answer")]).generatedFollowUps ≤
        FOLLOW_UP_LIMIT :=
  ⟨by decide, c9_follow_up_policy.1 _ _ _ (by decide)⟩

end PrepGPT
